import Mathlib

/-!
Shallow embedding of the TRADEAGENT monitoring pipeline, written from the
Python sources: the market signal detector
(src/analyzers/market_signal_detector.py), the accuracy tracker
(src/analyzers/accuracy_tracker.py), the LangGraph workflow nodes
(src/workflow/trading_graph.py), the repository persistence layer
(src/database/repository.py) and the monitor glue (src/core/monitor.py).

Conventions of the embedding:
* Python floats are modelled as rationals (ℚ).  Every comparison a claim
  depends on is between values far apart relative to double precision, so
  the order of the rational models agrees with the order of the doubles.
* Python dicts holding factor snapshots are modelled as a record
  `MarketData` whose fields are `Option`-valued: `none` models an absent
  key, and `d.field.getD v` models `d.get(key, v)`.  A snapshot argument
  of type `Option MarketData` uses `none` for a falsy value (`None` or an
  empty dict), matching the `if not snapshot:` guards of the source.
* Timestamps are integer Unix seconds; `timedelta(hours=h)` is `h * 3600`.
-/

namespace TradeAgent

/-- Overall sentiment sub-dict of the news snapshot
(`news_sentiment["overall_sentiment"]` in the source). -/
structure OverallSentiment where
  sentiment : Option String := none
  score : Option ℚ := none
  deriving Repr, DecidableEq

/-- A factor snapshot dict.  One record type covers the four collector
outputs, mirroring that the Python code passes untyped dicts: every key any
detector check reads is a field here, absent keys are `none`. -/
structure MarketData where
  -- funding rate snapshot keys (funding_rate.py)
  current_rate : Option ℚ := none
  is_extreme : Option Bool := none
  trend : Option String := none
  -- kline/volume snapshot keys (kline_volume.py)
  price_change_pct : Option ℚ := none
  price_trend : Option String := none
  volume_trend : Option String := none
  volume_signal : Option String := none
  current_volume : Option ℚ := none
  avg_volume : Option ℚ := none
  -- market pressure snapshot keys (liquidation.py)
  data_available : Option Bool := none
  risk_level : Option String := none
  long_short_r : Option ℚ := none
  long_account_pct : Option ℚ := none
  buy_sell_r : Option ℚ := none
  -- news snapshot keys (news_sentiment.py)
  overall_sentiment : Option OverallSentiment := none
  deriving Repr, DecidableEq

/-- A detector signal: `type` / `strength` / triggering `value` keys of the
dict returned by the `_check_*` methods.  The human-readable `description`
string (pure display text interpolating the same value) is not modelled. -/
structure Signal where
  type : String
  strength : String
  value : ℚ
  deriving Repr, DecidableEq

/-- The detector-relevant fields of `config/settings.py` (`Settings`).
`enabled` is `MARKET_SIGNAL_DETECTION_ENABLED`. -/
structure DetSettings where
  enabled : Bool
  minSignalCount : ℕ
  fundingExtreme : ℚ
  fundingChange : ℚ
  priceChange : ℚ
  volumeSurge : ℚ
  newsThreshold : ℚ
  deriving Repr, DecidableEq

/-- The default values of `config/settings.py` with no environment
overrides: detection enabled, `MIN_SIGNAL_COUNT = 2`,
`FUNDING_RATE_EXTREME_THRESHOLD = 0.001`,
`FUNDING_RATE_CHANGE_THRESHOLD = 0.0005`, `PRICE_CHANGE_THRESHOLD = 5.0`,
`VOLUME_SURGE_RATIO = 2.0`, `NEWS_SENTIMENT_THRESHOLD = 0.5`. -/
def defaultSettings : DetSettings :=
  { enabled := true
    minSignalCount := 2
    fundingExtreme := 1/1000
    fundingChange := 5/10000
    priceChange := 5
    volumeSurge := 2
    newsThreshold := 1/2 }

/-- Model of `MarketSignalDetector._check_funding_rate_signal`.  A `none` input models
a falsy dict (`if not funding_rate: return None`). -/
def check_funding_rate_signal (s : DetSettings) (funding_rate : Option MarketData) :
    Option Signal :=
  match funding_rate with
  | none => none
  | some fr =>
    let rate := fr.current_rate.getD 0
    let isExtreme := fr.is_extreme.getD false
    let trend := fr.trend.getD ""
    if isExtreme && decide (rate > s.fundingExtreme) then
      some { type := "资金费率极端做多", strength := "强", value := rate }
    else if isExtreme && decide (rate < -s.fundingExtreme) then
      some { type := "资金费率极端做空", strength := "强", value := rate }
    else if decide (|rate| > s.fundingChange) && (trend == "上升") && decide (rate > 0) then
      some { type := "资金费率快速上升", strength := "中", value := rate }
    else if decide (|rate| > s.fundingChange) && (trend == "下降") && decide (rate < 0) then
      some { type := "资金费率快速下降", strength := "中", value := rate }
    else
      none

/-- Model of `MarketSignalDetector._check_price_volatility_signal`. -/
def check_price_volatility_signal (s : DetSettings) (kline_volume : Option MarketData) :
    Option Signal :=
  match kline_volume with
  | none => none
  | some kv =>
    let pct := kv.price_change_pct.getD 0
    if decide (|pct| ≥ s.priceChange) then
      if decide (pct > 0) then
        some { type := "价格大幅上涨", strength := "强", value := pct }
      else
        some { type := "价格大幅下跌", strength := "强", value := pct }
    else
      none

/-- Model of `MarketSignalDetector._check_volume_anomaly_signal`. -/
def check_volume_anomaly_signal (s : DetSettings) (kline_volume : Option MarketData) :
    Option Signal :=
  match kline_volume with
  | none => none
  | some kv =>
    let volumeTrend := kv.volume_trend.getD ""
    let currentVolume := kv.current_volume.getD 0
    let avgVolume := kv.avg_volume.getD 0
    if avgVolume = 0 then none
    else
      let volumeMult := currentVolume / avgVolume
      if (volumeTrend == "放量") && decide (volumeMult ≥ s.volumeSurge) then
        some { type := "成交量异常放大", strength := "中", value := volumeMult }
      else
        none

/-- Model of `MarketSignalDetector._check_liquidation_signal` (market pressure).
The guard `if not liquidation or not liquidation.get("data_available")`
is the `none` case plus the `data_available` default. -/
def check_liquidation_signal (liquidation : Option MarketData) : Option Signal :=
  match liquidation with
  | none => none
  | some liq =>
    if !liq.data_available.getD false then none
    else
      let riskLevel := liq.risk_level.getD ""
      let lsr := liq.long_short_r.getD 1
      let longPct := liq.long_account_pct.getD 50
      let bsr := liq.buy_sell_r.getD 1
      if riskLevel == "高风险" then
        if decide (lsr > 5/2) || decide (longPct > 75) then
          some { type := "多头过度拥挤", strength := "强", value := lsr }
        else if decide (lsr < 1/2) || decide (longPct < 25) then
          some { type := "空头过度拥挤", strength := "强", value := lsr }
        else none
      else if riskLevel == "中等风险" then
        if decide (bsr > 6/5) then
          some { type := "主动买盘强劲", strength := "中", value := bsr }
        else if decide (bsr < 4/5) then
          some { type := "主动卖盘强劲", strength := "中", value := bsr }
        else none
      else none

/-- Model of `MarketSignalDetector._check_news_sentiment_signal`. -/
def check_news_sentiment_signal (s : DetSettings) (news_sentiment : Option MarketData) :
    Option Signal :=
  match news_sentiment with
  | none => none
  | some ns =>
    if !ns.data_available.getD false then none
    else
      let overall := ns.overall_sentiment.getD {}
      let score := overall.score.getD 0
      if decide (|score| ≥ s.newsThreshold) then
        if decide (score > 0) then
          some { type := "消息面极度乐观", strength := "中", value := score }
        else
          some { type := "消息面极度悲观", strength := "中", value := score }
      else
        none

/-- The five checks of `detect_trading_opportunity`, in source order; each
appends at most one signal. -/
def detectChecks (s : DetSettings) (funding_rate kline_volume liquidation news_sentiment :
    Option MarketData) : List Signal :=
  (check_funding_rate_signal s funding_rate).toList ++
  (check_price_volatility_signal s kline_volume).toList ++
  (check_volume_anomaly_signal s kline_volume).toList ++
  (check_liquidation_signal liquidation).toList ++
  (check_news_sentiment_signal s news_sentiment).toList

/-- Model of `MarketSignalDetector.detect_trading_opportunity`: returns
`(has_opportunity, signals, signal details)`.  When detection is disabled
it returns `(True, ["预判功能已禁用"], empty)` without running any check;
otherwise `has_opportunity = len(signals) >= MIN_SIGNAL_COUNT`. -/
def detect_trading_opportunity (s : DetSettings)
    (funding_rate kline_volume liquidation news_sentiment : Option MarketData) :
    Bool × List String × List Signal :=
  if !s.enabled then
    (true, ["预判功能已禁用"], [])
  else
    let details := detectChecks s funding_rate kline_volume liquidation news_sentiment
    (decide (s.minSignalCount ≤ details.length), details.map (·.type), details)

/-- The `is_extreme` flag as computed by `FundingRateCollector.collect`
(src/data_collectors/funding_rate.py lines 36-40): the current rate is
extreme when it is at least `0.001` or at most `-0.001`. -/
def collectorIsExtreme (rate : ℚ) : Bool :=
  decide (rate ≥ 1/1000) || decide (rate ≤ -(1/1000))

end TradeAgent

namespace TradeAgent

/-- C1: with detection enabled, `has_opportunity` is true exactly when the
number of triggered signals reaches `MIN_SIGNAL_COUNT`; with detection
disabled, `has_opportunity` is unconditionally true — for every combination
of the four input snapshots and every settings value. -/
theorem opportunity_gate_quorum (s : DetSettings)
    (funding_rate kline_volume liquidation news_sentiment : Option MarketData) :
    (detect_trading_opportunity s funding_rate kline_volume liquidation news_sentiment).1 =
      if s.enabled then
        decide (s.minSignalCount ≤
          (detect_trading_opportunity s funding_rate kline_volume liquidation
            news_sentiment).2.1.length)
      else true := by
  cases hs : s.enabled <;>
    simp [detect_trading_opportunity, hs, List.length_map]

/-- C9: a funding snapshot whose `is_extreme` flag is computed by the
collector from `current_rate = 0.0012` (so it is extreme, `0.0012 ≥ 0.001`)
with a rising trend makes the funding-rate check emit exactly the strong
"资金费率极端做多" signal carrying `0.0012`. -/
theorem extreme_funding_signal (d : MarketData)
    (hrate : d.current_rate = some (12/10000))
    (hext : d.is_extreme = some (collectorIsExtreme (12/10000)))
    (htrend : d.trend = some "上升") :
    check_funding_rate_signal defaultSettings (some d) =
      some { type := "资金费率极端做多", strength := "强", value := 12/10000 } := by
  simp [check_funding_rate_signal, hrate, hext, htrend, collectorIsExtreme,
    defaultSettings]
  norm_num

/-- The funding snapshot of a collector run that observed
`current_rate = 0.0012` with a rising recent-vs-older average
(funding_rate.py lines 24, 36-47). -/
def fundingSnapshot0012 : MarketData :=
  { current_rate := some (12/10000)
    is_extreme := some (collectorIsExtreme (12/10000))
    trend := some "上升" }

/-- Witness for C9 at the concrete collector snapshot. -/
theorem extreme_funding_signal_witness :
    check_funding_rate_signal defaultSettings (some fundingSnapshot0012) =
      some { type := "资金费率极端做多", strength := "强", value := 12/10000 } :=
  extreme_funding_signal fundingSnapshot0012 rfl rfl rfl

/-- A kline snapshot showing a 6% 24-hour move (above the 5% default
threshold), with no volume data. -/
def klineBigMove : MarketData :=
  { price_change_pct := some 6
    price_trend := some "上涨" }

/-- The fields of a snapshot that the funding-rate check reads. -/
def fundingView (d : MarketData) : Option ℚ × Option Bool × Option String :=
  (d.current_rate, d.is_extreme, d.trend)

/-- The fields of a snapshot that the price-volatility and volume-anomaly
checks read. -/
def klineView (d : MarketData) :
    Option ℚ × Option String × Option String × Option String × Option ℚ × Option ℚ :=
  (d.price_change_pct, d.price_trend, d.volume_trend, d.volume_signal,
    d.current_volume, d.avg_volume)

/-- The fields of a snapshot that the market-pressure check reads. -/
def pressureView (d : MarketData) :
    Option Bool × Option String × Option ℚ × Option ℚ × Option ℚ :=
  (d.data_available, d.risk_level, d.long_short_r, d.long_account_pct, d.buy_sell_r)

/-- The fields of a snapshot that the news-sentiment check reads. -/
def newsView (d : MarketData) : Option Bool × Option OverallSentiment :=
  (d.data_available, d.overall_sentiment)

theorem check_funding_congr (s : DetSettings) :
    ∀ {fr fr' : Option MarketData}, fr.map fundingView = fr'.map fundingView →
      check_funding_rate_signal s fr = check_funding_rate_signal s fr'
  | none, none, _ => rfl
  | some a, some b, h => by
      simp only [Option.map, fundingView, Prod.mk.injEq, Option.some.injEq] at h
      obtain ⟨h1, h2, h3⟩ := h
      simp [check_funding_rate_signal, h1, h2, h3]
  | none, some _, h => by simp [Option.map] at h
  | some _, none, h => by simp [Option.map] at h

theorem check_price_congr (s : DetSettings) :
    ∀ {kv kv' : Option MarketData}, kv.map klineView = kv'.map klineView →
      check_price_volatility_signal s kv = check_price_volatility_signal s kv'
  | none, none, _ => rfl
  | some a, some b, h => by
      simp only [Option.map, klineView, Prod.mk.injEq, Option.some.injEq] at h
      obtain ⟨h1, h2, h3, h4, h5, h6⟩ := h
      simp [check_price_volatility_signal, h1]
  | none, some _, h => by simp [Option.map] at h
  | some _, none, h => by simp [Option.map] at h

theorem check_volume_congr (s : DetSettings) :
    ∀ {kv kv' : Option MarketData}, kv.map klineView = kv'.map klineView →
      check_volume_anomaly_signal s kv = check_volume_anomaly_signal s kv'
  | none, none, _ => rfl
  | some a, some b, h => by
      simp only [Option.map, klineView, Prod.mk.injEq, Option.some.injEq] at h
      obtain ⟨h1, h2, h3, h4, h5, h6⟩ := h
      simp [check_volume_anomaly_signal, h3, h5, h6]
  | none, some _, h => by simp [Option.map] at h
  | some _, none, h => by simp [Option.map] at h

theorem check_liquidation_congr :
    ∀ {liq liq' : Option MarketData}, liq.map pressureView = liq'.map pressureView →
      check_liquidation_signal liq = check_liquidation_signal liq'
  | none, none, _ => rfl
  | some a, some b, h => by
      simp only [Option.map, pressureView, Prod.mk.injEq, Option.some.injEq] at h
      obtain ⟨h1, h2, h3, h4, h5⟩ := h
      simp [check_liquidation_signal, h1, h2, h3, h4, h5]
  | none, some _, h => by simp [Option.map] at h
  | some _, none, h => by simp [Option.map] at h

theorem check_news_congr (s : DetSettings) :
    ∀ {ns ns' : Option MarketData}, ns.map newsView = ns'.map newsView →
      check_news_sentiment_signal s ns = check_news_sentiment_signal s ns'
  | none, none, _ => rfl
  | some a, some b, h => by
      simp only [Option.map, newsView, Prod.mk.injEq, Option.some.injEq] at h
      obtain ⟨h1, h2⟩ := h
      simp [check_news_sentiment_signal, h1, h2]
  | none, some _, h => by simp [Option.map] at h
  | some _, none, h => by simp [Option.map] at h

/-- C7 (amended): the Detector is role-local — it reads each input snapshot
only through the fields of that parameter's own factor, so any two input
quadruples that agree role-wise on those fields yield an identical
opportunity flag, signal list and detail list.  (The unamended permutation
claim is refuted by `detector_permutation_counterexample`.) -/
theorem detector_role_locality (s : DetSettings)
    (fr fr' kv kv' liq liq' ns ns' : Option MarketData)
    (hf : fr.map fundingView = fr'.map fundingView)
    (hk : kv.map klineView = kv'.map klineView)
    (hl : liq.map pressureView = liq'.map pressureView)
    (hn : ns.map newsView = ns'.map newsView) :
    detect_trading_opportunity s fr kv liq ns =
      detect_trading_opportunity s fr' kv' liq' ns' := by
  have h1 := check_funding_congr s hf
  have h2 := check_price_congr s hk
  have h3 := check_volume_congr s hk
  have h4 := check_liquidation_congr hl
  have h5 := check_news_congr s hn
  simp [detect_trading_opportunity, detectChecks, h1, h2, h3, h4, h5]

/-- Witness for the role-locality theorem: two funding snapshots that agree
on the funding fields but differ elsewhere give identical detector output. -/
theorem detector_role_locality_witness :
    detect_trading_opportunity defaultSettings (some fundingSnapshot0012)
        (some klineBigMove) none none =
      detect_trading_opportunity defaultSettings
        (some { fundingSnapshot0012 with avg_volume := some 7 })
        (some klineBigMove) none none :=
  detector_role_locality defaultSettings _ _ _ _ _ _ _ _ rfl rfl rfl rfl

/-- C7 counterexample: swapping the funding-rate and kline snapshots across
the Detector's parameter roles changes the SignalSet — with the original
order the run has two signals and `has_opportunity = true`, with the two
snapshots permuted it has zero signals and `has_opportunity = false`. -/
theorem detector_permutation_counterexample :
    (detect_trading_opportunity defaultSettings (some fundingSnapshot0012)
        (some klineBigMove) none none).1 = true ∧
    (detect_trading_opportunity defaultSettings (some fundingSnapshot0012)
        (some klineBigMove) none none).2.1.length = 2 ∧
    (detect_trading_opportunity defaultSettings (some klineBigMove)
        (some fundingSnapshot0012) none none).1 = false ∧
    (detect_trading_opportunity defaultSettings (some klineBigMove)
        (some fundingSnapshot0012) none none).2.1 = [] := by
  refine ⟨?_, ?_, ?_, ?_⟩ <;>
    norm_num [detect_trading_opportunity, detectChecks, check_funding_rate_signal,
      check_price_volatility_signal, check_volume_anomaly_signal,
      check_liquidation_signal, check_news_sentiment_signal, defaultSettings,
      fundingSnapshot0012, klineBigMove, collectorIsExtreme]

/-- Model of `MarketSignalDetector.format_signal_summary`.  The per-signal lines of
the opportunity branch carry a numeric description string in the source;
only its strength/type prefix is reproduced here — no downstream decision
reads the opportunity-branch text. -/
def format_signal_summary (s : DetSettings) (has_opportunity : Bool)
    (signals : List String) (details : List Signal) : String :=
  if !s.enabled then "行情预判功能已禁用"
  else if !has_opportunity then
    "未检测到明显交易机会（触发信号数：" ++ toString signals.length ++ "/" ++
      toString s.minSignalCount ++ "）"
  else
    "检测到交易机会！触发 " ++ toString signals.length ++ " 个信号：" ++
      String.join (details.map fun d => "\n  • [" ++ d.strength ++ "] " ++ d.type)

/-- The LangGraph `TradingState` after the collector join, plus two ghost
observables: `detectorInvoked` records whether
`MarketSignalDetector.detect_trading_opportunity` ran, `reasonerInvoked`
whether `TradingAgent.analyze` ran.  The `TradingState` TypedDict has no
`triggered_signals` key and no node ever writes one, so the field stays
`none` through every run; it is kept because `save_analysis` reads it with
`state.get('triggered_signals', [])`. -/
structure WorkflowState where
  funding_rate : Option MarketData
  kline_volume : Option MarketData
  liquidation : Option MarketData
  news_sentiment : Option MarketData
  has_trading_opportunity : Option Bool := none
  signal_summary : Option String := none
  formatted_data : Option String := none
  analysis_result : Option String := none
  triggered_signals : Option (List String) := none
  detectorInvoked : Bool := false
  reasonerInvoked : Bool := false

/-- Model of `market_signal_detection_node`: with the funding-rate or kline snapshot
falsy it skips detection and defaults to "assume opportunity"; otherwise it
runs the detector (`state["liquidation"] or` an empty dict is falsy either
way, so the optional snapshots pass through unchanged). -/
def market_signal_detection_node (s : DetSettings) (st : WorkflowState) : WorkflowState :=
  if st.funding_rate.isNone || st.kline_volume.isNone then
    { st with has_trading_opportunity := some true,
              signal_summary := some "数据不足，默认进行AI分析" }
  else
    let r := detect_trading_opportunity s st.funding_rate st.kline_volume
      st.liquidation st.news_sentiment
    { st with has_trading_opportunity := some r.1,
              signal_summary := some (format_signal_summary s r.1 r.2.1 r.2.2),
              detectorInvoked := true }

/-- Model of `format_data_node`: raises (caught, leaving `formatted_data` null) when
the funding-rate or kline snapshot is missing, otherwise formats the four
snapshots through `FactorAnalyzer.format_for_llm`, abstracted here as the
function argument `format`. -/
def format_data_node
    (format : MarketData → MarketData → Option MarketData → Option MarketData → String)
    (st : WorkflowState) : WorkflowState :=
  match st.funding_rate, st.kline_volume with
  | some f, some k =>
      { st with formatted_data := some (format f k st.liquidation st.news_sentiment) }
  | _, _ => { st with formatted_data := none }

/-- Model of `ai_analysis_node`: gated on `state.get("has_trading_opportunity", True)`.
No opportunity substitutes the synthetic "no analysis needed" payload;
otherwise the Reasoner `TradingAgent.analyze` (abstracted as `reason`) runs
on the formatted text, or the node fails (null result) when no formatted
data exists. -/
def ai_analysis_node (reason : String → String) (st : WorkflowState) : WorkflowState :=
  if !(st.has_trading_opportunity.getD true) then
    let payload := "【无需分析】\n" ++ st.signal_summary.getD "未检测到明显交易机会"
    { st with analysis_result := some payload }
  else
    match st.formatted_data with
    | none => { st with analysis_result := none }
    | some t => { st with analysis_result := some (reason t), reasonerInvoked := true }

/-- Model of `run_trading_analysis`: the compiled graph — the collector join feeds
`market_signal_detection` → `format_data` → `ai_analysis`. -/
def run_trading_analysis (s : DetSettings)
    (funding_rate kline_volume liquidation news_sentiment : Option MarketData)
    (format : MarketData → MarketData → Option MarketData → Option MarketData → String)
    (reason : String → String) : WorkflowState :=
  ai_analysis_node reason (format_data_node format (market_signal_detection_node s
    { funding_rate := funding_rate
      kline_volume := kline_volume
      liquidation := liquidation
      news_sentiment := news_sentiment }))

/-- The fields of the persisted analysis record that the claims examine
(`AnalysisRepository.save_analysis`). -/
structure SavedAnalysis where
  has_trading_opportunity : Option Bool
  signal_count : ℕ
  triggered_signals : String
  full_analysis : String
  deriving Repr, DecidableEq

/-- Model of `AnalysisRepository.save_analysis`: `signal_count` and
`triggered_signals` read `state.get('triggered_signals', [])`, zeroed /
emptied when `state.get('has_trading_opportunity')` is falsy. -/
def save_analysis (st : WorkflowState) (analysis_result : String) : SavedAnalysis :=
  { has_trading_opportunity := st.has_trading_opportunity
    signal_count :=
      if st.has_trading_opportunity.getD false then (st.triggered_signals.getD []).length
      else 0
    triggered_signals :=
      if st.has_trading_opportunity.getD false then
        String.intercalate "," (st.triggered_signals.getD [])
      else ""
    full_analysis := analysis_result }

/-- Model of `TradingMonitor.analyze_symbol`: runs the workflow and persists only a
truthy `analysis_result` (a missing or empty result means the run failed
and nothing is saved). -/
def analyze_symbol (s : DetSettings)
    (funding_rate kline_volume liquidation news_sentiment : Option MarketData)
    (format : MarketData → MarketData → Option MarketData → Option MarketData → String)
    (reason : String → String) : Option SavedAnalysis :=
  let st := run_trading_analysis s funding_rate kline_volume liquidation news_sentiment
    format reason
  match st.analysis_result with
  | none => none
  | some t => if t = "" then none else some (save_analysis st t)

/-- C3: a null funding-rate or kline snapshot (load-bearing collector
failure) means the Detector is never invoked, the run ends with a null
analysis result and nothing is persisted; when both load-bearing snapshots
are present (even with the market-pressure and sentiment snapshots null)
the Detector runs and the run still reaches an analysis result. -/
theorem loadbearing_vs_optional_failure (s : DetSettings)
    (liquidation news_sentiment : Option MarketData)
    (format : MarketData → MarketData → Option MarketData → Option MarketData → String)
    (reason : String → String) :
    (∀ funding_rate kline_volume : Option MarketData,
      funding_rate = none ∨ kline_volume = none →
        (run_trading_analysis s funding_rate kline_volume liquidation news_sentiment
            format reason).detectorInvoked = false ∧
        (run_trading_analysis s funding_rate kline_volume liquidation news_sentiment
            format reason).analysis_result = none ∧
        analyze_symbol s funding_rate kline_volume liquidation news_sentiment
            format reason = none) ∧
    (∀ f k : MarketData,
        (run_trading_analysis s (some f) (some k) liquidation news_sentiment
            format reason).detectorInvoked = true ∧
        ((run_trading_analysis s (some f) (some k) liquidation news_sentiment
            format reason).analysis_result).isSome = true) := by
  constructor
  · rintro fr kv (rfl | rfl)
    · refine ⟨?_, ?_, ?_⟩ <;>
        simp [run_trading_analysis, market_signal_detection_node, format_data_node,
          ai_analysis_node, analyze_symbol]
    · rcases fr with _ | f <;>
        refine ⟨?_, ?_, ?_⟩ <;>
          simp [run_trading_analysis, market_signal_detection_node, format_data_node,
            ai_analysis_node, analyze_symbol]
  · intro f k
    by_cases h : (detect_trading_opportunity s (some f) (some k) liquidation
        news_sentiment).1 <;>
      simp [run_trading_analysis, market_signal_detection_node, format_data_node,
        ai_analysis_node, h]

/-- Witness for C3: with the funding snapshot null, nothing is persisted
and the detector never runs; with both load-bearing snapshots present, the
detector runs and a result exists. -/
theorem loadbearing_vs_optional_failure_witness :
    (run_trading_analysis defaultSettings none (some klineBigMove) none none
        (fun _ _ _ _ => "数据") (fun _ => "分析")).detectorInvoked = false ∧
    analyze_symbol defaultSettings none (some klineBigMove) none none
        (fun _ _ _ _ => "数据") (fun _ => "分析") = none ∧
    (run_trading_analysis defaultSettings (some fundingSnapshot0012) (some klineBigMove)
        none none (fun _ _ _ _ => "数据") (fun _ => "分析")).detectorInvoked = true := by
  have h := loadbearing_vs_optional_failure defaultSettings none none
    (fun _ _ _ _ => "数据") (fun _ => "分析")
  have h1 := h.1 none (some klineBigMove) (Or.inl rfl)
  have h2 := (h.2 fundingSnapshot0012 klineBigMove).1
  exact ⟨h1.1, h1.2.2, h2⟩

/-- C4: in a run whose load-bearing snapshots are present, the Reasoner is
invoked exactly when `has_trading_opportunity` is true; when it is true the
reasoning text over the formatted data becomes the analysis payload, and
when it is false the synthetic "no analysis needed" payload is substituted
and the Reasoner is never invoked. -/
theorem reasoner_cost_gate (s : DetSettings) (f k : MarketData)
    (liquidation news_sentiment : Option MarketData)
    (format : MarketData → MarketData → Option MarketData → Option MarketData → String)
    (reason : String → String) :
    ((run_trading_analysis s (some f) (some k) liquidation news_sentiment format
        reason).reasonerInvoked = true ↔
      (run_trading_analysis s (some f) (some k) liquidation news_sentiment format
        reason).has_trading_opportunity = some true) ∧
    ((run_trading_analysis s (some f) (some k) liquidation news_sentiment format
        reason).has_trading_opportunity = some true →
      (run_trading_analysis s (some f) (some k) liquidation news_sentiment format
        reason).analysis_result =
        some (reason (format f k liquidation news_sentiment))) ∧
    ((run_trading_analysis s (some f) (some k) liquidation news_sentiment format
        reason).has_trading_opportunity = some false →
      (run_trading_analysis s (some f) (some k) liquidation news_sentiment format
        reason).reasonerInvoked = false ∧
      (run_trading_analysis s (some f) (some k) liquidation news_sentiment format
        reason).analysis_result =
        some ("【无需分析】\n" ++
          ((run_trading_analysis s (some f) (some k) liquidation news_sentiment format
            reason).signal_summary).getD "未检测到明显交易机会")) := by
  by_cases h : (detect_trading_opportunity s (some f) (some k) liquidation
      news_sentiment).1 <;>
    simp [run_trading_analysis, market_signal_detection_node, format_data_node,
      ai_analysis_node, h]

/-- Witness for C4 at a concrete no-opportunity run: all snapshots empty,
detection enabled with quorum 2, so the Reasoner is skipped and the
synthetic payload is stored. -/
theorem reasoner_cost_gate_witness :
    (run_trading_analysis defaultSettings (some {}) (some {}) none none
        (fun _ _ _ _ => "数据") (fun _ => "分析")).reasonerInvoked = false ∧
    (run_trading_analysis defaultSettings (some {}) (some {}) none none
        (fun _ _ _ _ => "数据") (fun _ => "分析")).analysis_result =
      some ("【无需分析】\n" ++
        ((run_trading_analysis defaultSettings (some {}) (some {}) none none
          (fun _ _ _ _ => "数据") (fun _ => "分析")).signal_summary).getD
            "未检测到明显交易机会") := by
  have h := (reasoner_cost_gate defaultSettings {} {} none none
    (fun _ _ _ _ => "数据") (fun _ => "分析")).2.2
  apply h
  norm_num [run_trading_analysis, market_signal_detection_node, format_data_node,
    ai_analysis_node, detect_trading_opportunity, detectChecks,
    check_funding_rate_signal, check_price_volatility_signal,
    check_volume_anomaly_signal, check_liquidation_signal,
    check_news_sentiment_signal, defaultSettings]

/-- C5 (code bug): in a run where the Detector triggers two signals and
flags an opportunity, the workflow state never receives a
`triggered_signals` entry, so the persisted record stores
`signal_count = 0` and an empty `triggered_signals` string instead of the
Detector's two signals. -/
theorem persisted_signal_count_zero :
    (detect_trading_opportunity defaultSettings (some fundingSnapshot0012)
        (some klineBigMove) none none).2.1.length = 2 ∧
    (run_trading_analysis defaultSettings (some fundingSnapshot0012) (some klineBigMove)
        none none (fun _ _ _ _ => "数据") (fun _ => "AI分析结果")).triggered_signals =
      none ∧
    analyze_symbol defaultSettings (some fundingSnapshot0012) (some klineBigMove)
        none none (fun _ _ _ _ => "数据") (fun _ => "AI分析结果") =
      some { has_trading_opportunity := some true
             signal_count := 0
             triggered_signals := ""
             full_analysis := "AI分析结果" } := by
  refine ⟨?_, ?_, ?_⟩ <;>
    norm_num [analyze_symbol, run_trading_analysis, market_signal_detection_node,
      format_data_node, ai_analysis_node, save_analysis, detect_trading_opportunity,
      detectChecks, check_funding_rate_signal, check_price_volatility_signal,
      check_volume_anomaly_signal, check_liquidation_signal,
      check_news_sentiment_signal, defaultSettings, fundingSnapshot0012, klineBigMove,
      collectorIsExtreme, String.intercalate]
  decide

/-- A row of the `signal_performance` table joined with its
`analysis_records` row, as selected by
`AccuracyTracker.update_signal_performance`: entry data plus the advisory
fields (`trend_direction`, `target_price`, `stop_loss`) from the join, and
the mutable exit fields (null until the row is closed). -/
structure PerfRow where
  id : ℕ
  symbol : String
  entry_price : ℚ
  entry_time : ℤ
  exit_price : Option ℚ := none
  exit_time : Option ℤ := none
  price_change_pct : Option ℚ := none
  hit_target : Option Bool := none
  hit_stop_loss : Option Bool := none
  is_profitable : Option Bool := none
  trend_direction : Option String := none
  target_price : Option ℚ := none
  stop_loss : Option ℚ := none
  deriving Repr, DecidableEq

/-- Python truthiness of an optional price: `None` and `0.0` are falsy. -/
def truthyPrice : Option ℚ → Bool
  | none => false
  | some v => decide (v ≠ 0)

/-- The row-selection predicate of the tracker query:
`symbol = ? AND entry_time >= cutoff AND exit_price IS NULL`. -/
def rowSelected (symbol : String) (cutoff : ℤ) (r : PerfRow) : Bool :=
  (r.symbol == symbol) && decide (cutoff ≤ r.entry_time) && r.exit_price.isNone

/-- The percent change `((current_price - entry_price) / entry_price) * 100`. -/
def pctOf (current_price : ℚ) (r : PerfRow) : ℚ :=
  (current_price - r.entry_price) / r.entry_price * 100

/-- The per-row target/stop/profit decision of
`update_signal_performance` (`(hit_target, hit_stop_loss, is_profitable)`).
A falsy (`None` or zero) target or stop price skips its branch. -/
def signalDecision (current_price : ℚ) (trend : Option String)
    (target_price stop_loss : Option ℚ) (pct : ℚ) : Bool × Bool × Bool :=
  if (trend == some "上涨") || (trend == some "看多") then
    if truthyPrice target_price && decide (current_price ≥ target_price.getD 0) then
      (true, false, true)
    else if truthyPrice stop_loss && decide (current_price ≤ stop_loss.getD 0) then
      (false, true, false)
    else (false, false, decide (pct > 0))
  else if (trend == some "下跌") || (trend == some "看空") then
    if truthyPrice target_price && decide (current_price ≤ target_price.getD 0) then
      (true, false, true)
    else if truthyPrice stop_loss && decide (current_price ≥ stop_loss.getD 0) then
      (false, true, false)
    else (false, false, decide (pct < 0))
  else (false, false, false)

/-- The decision triple for one row. -/
def rowFlags (current_price : ℚ) (r : PerfRow) : Bool × Bool × Bool :=
  signalDecision current_price r.trend_direction r.target_price r.stop_loss
    (pctOf current_price r)

/-- The close test `should_close = hit_target or hit_stop_loss or hours_elapsed >= 24`,
with `hours_elapsed = (now - entry_time).total_seconds() / 3600`. -/
def shouldCloseRow (current_price : ℚ) (nowClose : ℤ) (r : PerfRow) : Bool :=
  (rowFlags current_price r).1 || (rowFlags current_price r).2.1 ||
    decide ((24 : ℚ) ≤ ((nowClose - r.entry_time : ℤ) : ℚ) / 3600)

/-- The UPDATE applied to one selected row when `should_close` holds,
otherwise the row is untouched. -/
def closeRow (current_price : ℚ) (nowClose : ℤ) (r : PerfRow) : PerfRow :=
  if shouldCloseRow current_price nowClose r then
    { r with exit_price := some current_price,
             exit_time := some nowClose,
             price_change_pct := some (pctOf current_price r),
             hit_target := some (rowFlags current_price r).1,
             hit_stop_loss := some (rowFlags current_price r).2.1,
             is_profitable := some (rowFlags current_price r).2.2 }
  else r

/-- What one tracker pass does to one table row: selected rows go through
the close decision, all others are untouched. -/
def updateRow (symbol : String) (cutoff : ℤ) (current_price : ℚ) (nowClose : ℤ)
    (r : PerfRow) : PerfRow :=
  if rowSelected symbol cutoff r then closeRow current_price nowClose r else r

/-- Model of `AccuracyTracker.update_signal_performance` over the whole table:
`nowSel` is the `datetime.now()` of the cutoff computation, `nowClose` the
one used inside the row loop for `hours_elapsed` and `exit_time`.  Returns
the updated table and the number of rows closed (`updated_count`).  An
empty selection or an untruthy current price returns early with count 0. -/
def update_signal_performance (db : List PerfRow) (symbol : String) (hours : ℤ)
    (nowSel nowClose : ℤ) (current_price : Option ℚ) : List PerfRow × ℕ :=
  let cutoff := nowSel - hours * 3600
  if (db.filter (rowSelected symbol cutoff)).isEmpty then (db, 0)
  else if !truthyPrice current_price then (db, 0)
  else
    let cp := current_price.getD 0
    (db.map (updateRow symbol cutoff cp nowClose),
      (db.filter fun r => rowSelected symbol cutoff r && shouldCloseRow cp nowClose r).length)

/-- The fallback profitability rule: sign of the percent change for a
directional trend, `false` otherwise. -/
def profitBySign (trend : Option String) (pct : ℚ) : Bool :=
  if (trend == some "上涨") || (trend == some "看多") then decide (pct > 0)
  else if (trend == some "下跌") || (trend == some "看空") then decide (pct < 0)
  else false

theorem rowFlags_profit_of_not_hit (current_price : ℚ) (r : PerfRow)
    (h1 : (rowFlags current_price r).1 = false)
    (h2 : (rowFlags current_price r).2.1 = false) :
    (rowFlags current_price r).2.2 =
      profitBySign r.trend_direction (pctOf current_price r) := by
  unfold rowFlags signalDecision profitBySign at *
  split_ifs at * <;> simp_all

theorem updateRow_idem (symbol : String) (cutoff : ℤ) (cp : ℚ) (nowClose : ℤ)
    (r : PerfRow) :
    updateRow symbol cutoff cp nowClose (updateRow symbol cutoff cp nowClose r) =
      updateRow symbol cutoff cp nowClose r := by
  unfold updateRow
  by_cases hsel : rowSelected symbol cutoff r
  · by_cases hcl : shouldCloseRow cp nowClose r
    · simp only [hsel, if_true]
      unfold closeRow
      simp only [hcl, if_true]
      simp [rowSelected]
    · simp [hsel, closeRow, hcl]
  · simp [hsel]

theorem updateRow_not_reclosable (symbol : String) (cutoff : ℤ) (cp : ℚ)
    (nowClose : ℤ) (r : PerfRow) :
    (rowSelected symbol cutoff (updateRow symbol cutoff cp nowClose r) &&
      shouldCloseRow cp nowClose (updateRow symbol cutoff cp nowClose r)) = false := by
  unfold updateRow
  by_cases hsel : rowSelected symbol cutoff r
  · by_cases hcl : shouldCloseRow cp nowClose r
    · simp only [hsel, if_true]
      unfold closeRow
      simp only [hcl, if_true]
      simp [rowSelected]
    · simp [hsel, closeRow, hcl]
  · simp [hsel]

/-- C6: a closed row (`exit_price` non-null) is never selected and never
modified by `update_signal_performance`, and a second run over the first
run's output (same symbol, window, times and price) changes nothing and
reports zero closures — each row is closed at most once and never
double-counted. -/
theorem tracker_close_idempotent (db : List PerfRow) (symbol : String) (hours : ℤ)
    (nowSel nowClose : ℤ) (current_price : Option ℚ) :
    (∀ r : PerfRow, r.exit_price ≠ none → ∀ cutoff cp,
      rowSelected symbol cutoff r = false ∧
      updateRow symbol cutoff cp nowClose r = r) ∧
    update_signal_performance
        (update_signal_performance db symbol hours nowSel nowClose current_price).1
        symbol hours nowSel nowClose current_price =
      ((update_signal_performance db symbol hours nowSel nowClose current_price).1, 0) := by
  constructor
  · intro r hr cutoff cp
    have hns : r.exit_price.isNone = false := by
      cases hx : r.exit_price
      · exact absurd hx hr
      · rfl
    have hsel : rowSelected symbol cutoff r = false := by
      simp [rowSelected, hns]
    exact ⟨hsel, by simp [updateRow, hsel]⟩
  · unfold update_signal_performance
    by_cases h1 : (db.filter (rowSelected symbol (nowSel - hours * 3600))).isEmpty
    · simp [h1]
    · by_cases h2 : truthyPrice current_price
      · simp only [h1, h2, if_false, Bool.not_true, if_true]
        have hmap : (db.map (updateRow symbol (nowSel - hours * 3600)
            (current_price.getD 0) nowClose)).map (updateRow symbol
            (nowSel - hours * 3600) (current_price.getD 0) nowClose) =
            db.map (updateRow symbol (nowSel - hours * 3600)
              (current_price.getD 0) nowClose) := by
          rw [List.map_map]
          exact List.map_congr_left fun r _ => updateRow_idem _ _ _ _ r
        have hfilter : ((db.map (updateRow symbol (nowSel - hours * 3600)
            (current_price.getD 0) nowClose)).filter fun r =>
              rowSelected symbol (nowSel - hours * 3600) r &&
                shouldCloseRow (current_price.getD 0) nowClose r) = [] := by
          rw [List.filter_eq_nil_iff]
          intro a ha
          obtain ⟨r, _, rfl⟩ := List.mem_map.mp ha
          simp [updateRow_not_reclosable]
        by_cases h3 : ((db.map (updateRow symbol (nowSel - hours * 3600)
            (current_price.getD 0) nowClose)).filter
              (rowSelected symbol (nowSel - hours * 3600))).isEmpty
        · simp [h3]
        · simp [h3, h2, hmap, hfilter]
      · simp [h1, h2]

/-- A row already closed by an earlier pass. -/
def closedRowEx : PerfRow :=
  { id := 1
    symbol := "BTCUSDT"
    entry_price := 100
    entry_time := 0
    exit_price := some 103
    exit_time := some 7200
    trend_direction := some "看多" }

/-- Witness for C6 at a one-row table containing a closed row. -/
theorem tracker_close_idempotent_witness :
    rowSelected "BTCUSDT" 0 closedRowEx = false ∧
    updateRow "BTCUSDT" 0 100 7200 closedRowEx = closedRowEx ∧
    update_signal_performance
        (update_signal_performance [closedRowEx] "BTCUSDT" 24 7200 7200 (some 100)).1
        "BTCUSDT" 24 7200 7200 (some 100) =
      ((update_signal_performance [closedRowEx] "BTCUSDT" 24 7200 7200 (some 100)).1,
        0) := by
  have h := tracker_close_idempotent [closedRowEx] "BTCUSDT" 24 7200 7200 (some 100)
  have h1 := h.1 closedRowEx (by simp [closedRowEx]) 0 100
  exact ⟨h1.1, h1.2, h.2⟩

theorem update_eq_map (db : List PerfRow) (symbol : String) (hours : ℤ)
    (nowSel nowClose : ℤ) (cp : ℚ)
    (hne : (db.filter (rowSelected symbol (nowSel - hours * 3600))).isEmpty = false)
    (hcp : cp ≠ 0) :
    update_signal_performance db symbol hours nowSel nowClose (some cp) =
      (db.map (updateRow symbol (nowSel - hours * 3600) cp nowClose),
        (db.filter fun r => rowSelected symbol (nowSel - hours * 3600) r &&
          shouldCloseRow cp nowClose r).length) := by
  unfold update_signal_performance
  simp [hne, truthyPrice, hcp]

theorem selected_mem_filter_not_empty (db : List PerfRow) (symbol : String)
    (cutoff : ℤ) (r : PerfRow) (hmem : r ∈ db)
    (hsel : rowSelected symbol cutoff r = true) :
    (db.filter (rowSelected symbol cutoff)).isEmpty = false := by
  have hr : r ∈ db.filter (rowSelected symbol cutoff) :=
    List.mem_filter.mpr ⟨hmem, hsel⟩
  cases hfe : db.filter (rowSelected symbol cutoff) with
  | nil => rw [hfe] at hr; exact absurd hr (List.not_mem_nil r)
  | cons a as => rfl

theorem elapsed_ge_24h (nowClose entry : ℤ) (h : 86400 ≤ nowClose - entry) :
    (24 : ℚ) ≤ ((nowClose - entry : ℤ) : ℚ) / 3600 := by
  rw [le_div_iff₀ (by norm_num : (0 : ℚ) < 3600)]
  have hc : ((86400 : ℤ) : ℚ) ≤ ((nowClose - entry : ℤ) : ℚ) := by exact_mod_cast h
  push_cast at hc ⊢
  linarith

theorem elapsed_lt_24h (nowClose entry : ℤ) (h : nowClose - entry < 86400) :
    ¬((24 : ℚ) ≤ ((nowClose - entry : ℤ) : ℚ) / 3600) := by
  rw [not_le, div_lt_iff₀ (by norm_num : (0 : ℚ) < 3600)]
  have hc : ((nowClose - entry : ℤ) : ℚ) < ((86400 : ℤ) : ℚ) := by exact_mod_cast h
  push_cast at hc ⊢
  linarith

/-- Shared core of the timeout claims: a selected open row with neither hit
flag set and at least 24 hours elapsed is closed by the pass — its closed
version (exit price/time set, profitability by the sign rule) is in the
output table and the pass counts at least one closure. -/
theorem close_selected_row_mem (db : List PerfRow) (symbol : String) (hours : ℤ)
    (nowSel nowClose : ℤ) (cp : ℚ) (r : PerfRow) (hmem : r ∈ db)
    (hsym : r.symbol = symbol) (hopen : r.exit_price = none)
    (hwin : nowSel - hours * 3600 ≤ r.entry_time) (hcp : cp ≠ 0)
    (hht : (rowFlags cp r).1 = false) (hhs : (rowFlags cp r).2.1 = false)
    (helapsed : 86400 ≤ nowClose - r.entry_time) :
    { r with exit_price := some cp, exit_time := some nowClose,
             price_change_pct := some (pctOf cp r),
             hit_target := some false, hit_stop_loss := some false,
             is_profitable :=
               some (profitBySign r.trend_direction (pctOf cp r)) }
      ∈ (update_signal_performance db symbol hours nowSel nowClose (some cp)).1 ∧
    1 ≤ (update_signal_performance db symbol hours nowSel nowClose (some cp)).2 := by
  have hsel : rowSelected symbol (nowSel - hours * 3600) r = true := by
    simp [rowSelected, hsym, hwin, hopen]
  have hclose : shouldCloseRow cp nowClose r = true := by
    unfold shouldCloseRow
    simp only [Bool.or_eq_true, decide_eq_true_eq]
    right
    exact elapsed_ge_24h nowClose r.entry_time helapsed
  have hne := selected_mem_filter_not_empty db symbol (nowSel - hours * 3600) r hmem hsel
  rw [update_eq_map db symbol hours nowSel nowClose cp hne hcp]
  constructor
  · have hrow : updateRow symbol (nowSel - hours * 3600) cp nowClose r =
        { r with exit_price := some cp, exit_time := some nowClose,
                 price_change_pct := some (pctOf cp r),
                 hit_target := some false, hit_stop_loss := some false,
                 is_profitable :=
                   some (profitBySign r.trend_direction (pctOf cp r)) } := by
      unfold updateRow closeRow
      simp [hsel, hclose, hht, hhs, rowFlags_profit_of_not_hit cp r hht hhs]
    rw [← hrow]
    exact List.mem_map_of_mem _ hmem
  · have hr : r ∈ db.filter fun x => rowSelected symbol (nowSel - hours * 3600) x &&
        shouldCloseRow cp nowClose x :=
      List.mem_filter.mpr ⟨hmem, by simp [hsel, hclose]⟩
    exact List.length_pos_of_mem hr

/-- C2 (amended): every open row that the pass selects (matching symbol,
`entry_time` inside the lookback window `entry_time ≥ now − hours`) with
neither target nor stop crossed is force-closed once at least 24 hours have
elapsed, with exit price/time set and profitability decided by the trend
direction and the sign of the percent change.  The unamended claim — that
this holds for every open row of the symbol, in particular one opened 24
hours and 1 second before a default `hours = 24` run — is refuted by
`timeout_claim_counterexample`: such a row falls outside the lookback
window and is not selected. -/
theorem timeout_force_close (db : List PerfRow) (symbol : String) (hours : ℤ)
    (nowSel nowClose : ℤ) (cp : ℚ) (r : PerfRow) (hmem : r ∈ db)
    (hsym : r.symbol = symbol) (hopen : r.exit_price = none)
    (hwin : nowSel - hours * 3600 ≤ r.entry_time) (hcp : cp ≠ 0)
    (hht : (rowFlags cp r).1 = false) (hhs : (rowFlags cp r).2.1 = false)
    (helapsed : 86400 ≤ nowClose - r.entry_time) :
    { r with exit_price := some cp, exit_time := some nowClose,
             price_change_pct := some (pctOf cp r),
             hit_target := some false, hit_stop_loss := some false,
             is_profitable :=
               some (profitBySign r.trend_direction (pctOf cp r)) }
      ∈ (update_signal_performance db symbol hours nowSel nowClose (some cp)).1 ∧
    1 ≤ (update_signal_performance db symbol hours nowSel nowClose (some cp)).2 :=
  close_selected_row_mem db symbol hours nowSel nowClose cp r hmem hsym hopen hwin
    hcp hht hhs helapsed

/-- An open long row entered 24 hours and 1 second before the tracker pass
at times 86401, with no target or stop price advised. -/
def staleOpenRow : PerfRow :=
  { id := 1
    symbol := "BTCUSDT"
    entry_price := 100
    entry_time := 0
    trend_direction := some "看多" }

/-- C2 counterexample: under the default lookback `hours = 24`, the open
row aged 24 hours and 1 second, with neither target nor stop crossed, is
left open and uncounted by the pass — the cutoff `now − 24 h` excludes it
from the selection, so it is not force-closed as the claim states. -/
theorem timeout_claim_counterexample :
    staleOpenRow.exit_price = none ∧
    (rowFlags 100 staleOpenRow).1 = false ∧
    (rowFlags 100 staleOpenRow).2.1 = false ∧
    86400 ≤ (86401 : ℤ) - staleOpenRow.entry_time ∧
    update_signal_performance [staleOpenRow] "BTCUSDT" 24 86401 86401 (some 100) =
      ([staleOpenRow], 0) := by
  refine ⟨rfl, ?_, ?_, by norm_num [staleOpenRow], ?_⟩ <;>
    norm_num [rowFlags, signalDecision, truthyPrice, pctOf, staleOpenRow,
      update_signal_performance, rowSelected, List.filter]

/-- Witness for C2 (amended): called with lookback `hours = 25` the same
row is selected and force-closed as a timeout, unprofitable since its
percent change is zero. -/
theorem timeout_force_close_witness :
    { staleOpenRow with exit_price := some (100 : ℚ), exit_time := some (86401 : ℤ),
                        price_change_pct := some (pctOf 100 staleOpenRow),
                        hit_target := some false, hit_stop_loss := some false,
                        is_profitable := some (profitBySign
                          staleOpenRow.trend_direction (pctOf 100 staleOpenRow)) }
      ∈ (update_signal_performance [staleOpenRow] "BTCUSDT" 25 86401 86401
          (some 100)).1 ∧
    1 ≤ (update_signal_performance [staleOpenRow] "BTCUSDT" 25 86401 86401
        (some 100)).2 :=
  timeout_force_close [staleOpenRow] "BTCUSDT" 25 86401 86401 100 staleOpenRow
    (by simp) rfl rfl (by norm_num [staleOpenRow]) (by norm_num)
    (by norm_num [rowFlags, signalDecision, truthyPrice, staleOpenRow, pctOf])
    (by norm_num [rowFlags, signalDecision, truthyPrice, staleOpenRow, pctOf])
    (by norm_num [staleOpenRow])

/-- C10: a selected open row whose trend direction is none of the four
directional strings never gets a hit flag (its decision triple is all
false), is closed only via the 24-hour timeout — below 24 hours the pass
leaves it untouched — and when the timeout closes it the recorded
profitability is false regardless of the sign or size of the percent
change. -/
theorem nondirectional_rows_close_unprofitable (db : List PerfRow) (symbol : String)
    (hours : ℤ) (nowSel nowClose : ℤ) (cp : ℚ) (r : PerfRow) (hmem : r ∈ db)
    (ht1 : r.trend_direction ≠ some "上涨") (ht2 : r.trend_direction ≠ some "看多")
    (ht3 : r.trend_direction ≠ some "下跌") (ht4 : r.trend_direction ≠ some "看空")
    (hsym : r.symbol = symbol) (hopen : r.exit_price = none)
    (hwin : nowSel - hours * 3600 ≤ r.entry_time) (hcp : cp ≠ 0) :
    rowFlags cp r = (false, false, false) ∧
    (86400 ≤ nowClose - r.entry_time →
      { r with exit_price := some cp, exit_time := some nowClose,
               price_change_pct := some (pctOf cp r),
               hit_target := some false, hit_stop_loss := some false,
               is_profitable := some false }
        ∈ (update_signal_performance db symbol hours nowSel nowClose (some cp)).1) ∧
    (nowClose - r.entry_time < 86400 →
      updateRow symbol (nowSel - hours * 3600) cp nowClose r = r) := by
  have hflags : rowFlags cp r = (false, false, false) := by
    unfold rowFlags signalDecision
    simp [beq_iff_eq, ht1, ht2, ht3, ht4]
  have hpb : profitBySign r.trend_direction (pctOf cp r) = false := by
    simp [profitBySign, beq_iff_eq, ht1, ht2, ht3, ht4]
  refine ⟨hflags, ?_, ?_⟩
  · intro helapsed
    have h := close_selected_row_mem db symbol hours nowSel nowClose cp r hmem hsym
      hopen hwin hcp (by rw [hflags]) (by rw [hflags]) helapsed
    rw [hpb] at h
    exact h.1
  · intro hlt
    have hsel : rowSelected symbol (nowSel - hours * 3600) r = true := by
      simp [rowSelected, hsym, hwin, hopen]
    have hnc : shouldCloseRow cp nowClose r = false := by
      have h24 := elapsed_lt_24h nowClose r.entry_time hlt
      push_cast at h24
      rw [not_le] at h24
      unfold shouldCloseRow
      simp [hflags, h24]
    simp [updateRow, hsel, closeRow, hnc]

/-- An open row carrying a null trend direction, entered at time 0. -/
def nondirRow : PerfRow :=
  { id := 2
    symbol := "BTCUSDT"
    entry_price := 100
    entry_time := 0 }

/-- Witness for C10: a null-trend row aged over 24 hours whose price rose
50% is timeout-closed with no hit flags and `is_profitable = false`. -/
theorem nondirectional_rows_close_unprofitable_witness :
    rowFlags 150 nondirRow = (false, false, false) ∧
    { nondirRow with exit_price := some (150 : ℚ), exit_time := some (86401 : ℤ),
                     price_change_pct := some (pctOf 150 nondirRow),
                     hit_target := some false, hit_stop_loss := some false,
                     is_profitable := some false }
      ∈ (update_signal_performance [nondirRow] "BTCUSDT" 25 86401 86401
          (some 150)).1 := by
  have h := nondirectional_rows_close_unprofitable [nondirRow] "BTCUSDT" 25 86401
    86401 150 nondirRow (by simp) (by simp [nondirRow]) (by simp [nondirRow])
    (by simp [nondirRow]) (by simp [nondirRow]) rfl rfl
    (by norm_num [nondirRow]) (by norm_num)
  exact ⟨h.1, h.2.1 (by norm_num [nondirRow])⟩

/-- The structured fields extracted by
`AnalysisRepository._parse_analysis_result`; every field may be absent. -/
structure ParsedResult where
  trend_direction : Option String := none
  confidence : Option ℚ := none
  support_level : Option ℚ := none
  resistance_level : Option ℚ := none
  stop_loss : Option ℚ := none
  target_price : Option ℚ := none
  suggested_position : Option String := none
  deriving Repr, DecidableEq

/-- Python substring containment (`needle in hay`). -/
def strContains (hay needle : String) : Bool :=
  hay.toList.tails.any needle.toList.isPrefixOf

/-- Model of `AnalysisRepository._extract_price`.  The regex literal in the source
begins with the invalid escape sequence backslash-T (the pattern reads
`r'\True...'`), so `re.search` raises `re.error` before matching anything:
every call fails, for every input text, and no price is ever produced. -/
def extract_price (_text : String) : Except String (Option ℚ) :=
  Except.error "bad escape"

/-- One price-marker branch of the parser: the bare `except: pass` around
`_extract_price` swallows the raised error, and a falsy (zero) price is
discarded by the `if price:` guard. -/
def applyPriceLine (acc : ParsedResult) (line : String)
    (set : ParsedResult → ℚ → ParsedResult) : ParsedResult :=
  match extract_price line with
  | Except.error _ => acc
  | Except.ok none => acc
  | Except.ok (some p) => if p = 0 then acc else set acc p

/-- Numeric value of a decimal digit character. -/
def digitVal (c : Char) : ℕ := c.toNat - 48

/-- Leftmost match of a digit run directly followed by a percent sign
(the `re.search` over digits-then-percent used for the confidence field):
`acc` carries the digit run currently being read. -/
def findPercent (acc : Option ℕ) : List Char → Option ℕ
  | [] => none
  | c :: rest =>
    if c.isDigit then findPercent (some ((acc.getD 0) * 10 + digitVal c)) rest
    else if c = '%' then
      match acc with
      | some n => some n
      | none => findPercent none rest
    else findPercent none rest

/-- Python `str.strip()` on the character list: leading and trailing
whitespace removed. -/
def pyStrip (s : String) : String :=
  String.mk (((s.toList.dropWhile Char.isWhitespace).reverse.dropWhile
    Char.isWhitespace).reverse)

/-- The trend branch of the line loop: on a trend-marker line, look at the
stripped following line for a direction word. -/
def stepTrend (acc : ParsedResult) (line : String) : Option String → ParsedResult
  | none => acc
  | some nxt =>
    if strContains line "【市场趋势判断】" || strContains line "市场趋势判断" then
      let t := pyStrip nxt
      if strContains t "看多" then { acc with trend_direction := some "看多" }
      else if strContains t "看空" then { acc with trend_direction := some "看空" }
      else if strContains t "震荡" then { acc with trend_direction := some "震荡" }
      else acc
    else acc

/-- The four price-marker branches (support, resistance, stop-loss,
target), in source order. -/
def stepPrices (acc : ParsedResult) (line : String) : ParsedResult :=
  let acc :=
    if strContains line "支撑位" then
      applyPriceLine acc line fun a p => { a with support_level := some p }
    else acc
  let acc :=
    if strContains line "阻力位" then
      applyPriceLine acc line fun a p => { a with resistance_level := some p }
    else acc
  let acc :=
    if strContains line "止损位" then
      applyPriceLine acc line fun a p => { a with stop_loss := some p }
    else acc
  if strContains line "目标位" then
    applyPriceLine acc line fun a p => { a with target_price := some p }
  else acc

/-- The suggested-position branch. -/
def stepPosition (acc : ParsedResult) (line : String) : ParsedResult :=
  if strContains line "建议仓位" then
    if strContains line "轻仓" then { acc with suggested_position := some "轻仓" }
    else if strContains line "中仓" then { acc with suggested_position := some "中仓" }
    else if strContains line "重仓" then { acc with suggested_position := some "重仓" }
    else acc
  else acc

/-- The confidence branch: first digits-percent match, divided by 100. -/
def stepConfidence (acc : ParsedResult) (line : String) : ParsedResult :=
  if strContains line "信心度" then
    match findPercent none line.toList with
    | some n => { acc with confidence := some ((n : ℚ) / 100) }
    | none => acc
  else acc

/-- One iteration of the line loop of `_parse_analysis_result`: the line is
stripped, then each marker branch runs in source order. -/
def parse_step (acc : ParsedResult) (rawLine : String) (nextLine : Option String) :
    ParsedResult :=
  let line := pyStrip rawLine
  stepConfidence (stepPosition (stepPrices (stepTrend acc line nextLine) line) line)
    line

/-- The line loop, carrying the accumulated result and the lookahead. -/
def parse_go (acc : ParsedResult) : List String → ParsedResult
  | [] => acc
  | l :: rest => parse_go (parse_step acc l rest.head?) rest

/-- Model of `AnalysisRepository._parse_analysis_result` on the already-split lines
of the reasoning text (the source splits the text on newlines first). -/
def parse_analysis_result (analysis_lines : List String) : ParsedResult :=
  parse_go {} analysis_lines

theorem applyPriceLine_id (acc : ParsedResult) (line : String)
    (set : ParsedResult → ℚ → ParsedResult) : applyPriceLine acc line set = acc := rfl

theorem stepPrices_id (acc : ParsedResult) (line : String) :
    stepPrices acc line = acc := by
  unfold stepPrices
  simp only [applyPriceLine_id]
  split_ifs <;> rfl

theorem stepTrend_prices (acc : ParsedResult) (line : String) (n : Option String) :
    (stepTrend acc line n).support_level = acc.support_level ∧
    (stepTrend acc line n).resistance_level = acc.resistance_level ∧
    (stepTrend acc line n).stop_loss = acc.stop_loss ∧
    (stepTrend acc line n).target_price = acc.target_price := by
  cases n with
  | none => exact ⟨rfl, rfl, rfl, rfl⟩
  | some nxt =>
    simp only [stepTrend]
    split_ifs <;> exact ⟨rfl, rfl, rfl, rfl⟩

theorem stepPosition_prices (acc : ParsedResult) (line : String) :
    (stepPosition acc line).support_level = acc.support_level ∧
    (stepPosition acc line).resistance_level = acc.resistance_level ∧
    (stepPosition acc line).stop_loss = acc.stop_loss ∧
    (stepPosition acc line).target_price = acc.target_price := by
  unfold stepPosition
  split_ifs <;> exact ⟨rfl, rfl, rfl, rfl⟩

theorem stepConfidence_prices (acc : ParsedResult) (line : String) :
    (stepConfidence acc line).support_level = acc.support_level ∧
    (stepConfidence acc line).resistance_level = acc.resistance_level ∧
    (stepConfidence acc line).stop_loss = acc.stop_loss ∧
    (stepConfidence acc line).target_price = acc.target_price := by
  unfold stepConfidence
  split_ifs
  · cases findPercent none line.toList <;> exact ⟨rfl, rfl, rfl, rfl⟩
  · exact ⟨rfl, rfl, rfl, rfl⟩

theorem parse_step_prices (acc : ParsedResult) (l : String) (n : Option String) :
    (parse_step acc l n).support_level = acc.support_level ∧
    (parse_step acc l n).resistance_level = acc.resistance_level ∧
    (parse_step acc l n).stop_loss = acc.stop_loss ∧
    (parse_step acc l n).target_price = acc.target_price := by
  unfold parse_step
  dsimp only
  rw [stepPrices_id]
  have h1 := stepTrend_prices acc (pyStrip l) n
  have h2 := stepPosition_prices (stepTrend acc (pyStrip l) n) (pyStrip l)
  have h3 := stepConfidence_prices
    (stepPosition (stepTrend acc (pyStrip l) n) (pyStrip l)) (pyStrip l)
  exact ⟨h3.1.trans (h2.1.trans h1.1), h3.2.1.trans (h2.2.1.trans h1.2.1),
    h3.2.2.1.trans (h2.2.2.1.trans h1.2.2.1),
    h3.2.2.2.trans (h2.2.2.2.trans h1.2.2.2)⟩

theorem parse_go_prices (ls : List String) : ∀ acc : ParsedResult,
    (parse_go acc ls).support_level = acc.support_level ∧
    (parse_go acc ls).resistance_level = acc.resistance_level ∧
    (parse_go acc ls).stop_loss = acc.stop_loss ∧
    (parse_go acc ls).target_price = acc.target_price := by
  induction ls with
  | nil => intro acc; exact ⟨rfl, rfl, rfl, rfl⟩
  | cons l rest ih =>
    intro acc
    have h1 := ih (parse_step acc l rest.head?)
    have h2 := parse_step_prices acc l rest.head?
    unfold parse_go
    exact ⟨h1.1.trans h2.1, h1.2.1.trans h2.2.1, h1.2.2.1.trans h2.2.2.1,
      h1.2.2.2.trans h2.2.2.2⟩

/-- C8 (code bug): the parser is total and tolerates every field being
absent, but the four price fields (support, resistance, stop-loss, target)
are never extracted from any reasoning text — the price regex of
`_extract_price` is an invalid pattern that raises on every call, silently
swallowed — even though a `目标位` line with a dollar-prefixed number
carries the documented marker and the non-price markers (the trend line
here) do extract. -/
theorem price_fields_never_extracted (lines : List String) :
    ((parse_analysis_result lines).support_level = none ∧
     (parse_analysis_result lines).resistance_level = none ∧
     (parse_analysis_result lines).stop_loss = none ∧
     (parse_analysis_result lines).target_price = none) ∧
    strContains "目标位: $105000" "目标位" = true ∧
    (parse_analysis_result ["【市场趋势判断】", "看多", "目标位: $105000"]).trend_direction =
      some "看多" ∧
    (parse_analysis_result ["【市场趋势判断】", "看多", "目标位: $105000"]).target_price =
      none := by
  refine ⟨parse_go_prices lines {}, by decide, by decide,
    (parse_go_prices ["【市场趋势判断】", "看多", "目标位: $105000"] {}).2.2.2⟩

end TradeAgent
